import Mathlib

/-!
# WorkTimeTracker — verification of the shift-detection core

Shallow embedding of the geofence-based shift-detection core of the
WorkTimeTracker repository, together with proofs settling the spec claims.

Timestamps are modelled as milliseconds since the epoch (`Nat`), matching the
JavaScript `Date` value; `getMinutes` is `t / 60000 % 60`, `setMinutes(0,0,0)`
truncates to the hour, `setHours(h+1)` adds 3600000 ms.  Distances (metres)
are modelled as rationals so that the exit-buffer threshold `radius * 1.2`
is exact.

Sources embedded:
* `services/timeRoundingUtils.js` — `roundTime`, `roundEntryTime`,
  `roundExitTime`, `calculateRoundedDuration`, `processShiftWithRounding`;
* the iOS-optimized geofencing service (the variant the repository's own
  project documentation describes, with duplicate-entry guard, dwell
  confirmation, exit validation against `radius * IOS_EXIT_BUFFER`, rounded
  finalization with `wasRounded`, and `clearWorkState`) — `handleWorkEntry`,
  `checkStillAtWork`, `validateAndHandleExit`, `handleWorkExit`,
  `clearWorkState`, the background-location task body, and
  `removePendingShift`;
* `screens/HomeScreen.js` — `confirmShift`.
-/

namespace WorkTimeTracker

/-! ## Time rounding (`services/timeRoundingUtils.js`) -/

/-- `roundTime` from `timeRoundingUtils.js`: reads `getMinutes()`;
`m <= 15` → `setMinutes(0,0,0)` (truncate to the hour); `15 < m <= 45` →
`setMinutes(30,0,0)`; otherwise `setMinutes(0,0,0)` then
`setHours(getHours()+1)`. -/
def roundTime (t : Nat) : Nat :=
  let minutes := t / 60000 % 60
  let hourStart := t - t % 3600000
  if minutes ≤ 15 then hourStart
  else if minutes ≤ 45 then hourStart + 1800000
  else hourStart + 3600000

/-- `roundEntryTime` delegates to `roundTime` (the string→Date coercion is
identity in the model). -/
def roundEntryTime (t : Nat) : Nat := roundTime t

/-- `roundExitTime` delegates to `roundTime`. -/
def roundExitTime (t : Nat) : Nat := roundTime t

/-- `calculateRoundedDuration`: `Math.floor((roundedEnd - roundedStart) / 60000)`.
JavaScript subtraction of dates may be negative, so the result is an `Int`
and the floor division is `Int.fdiv`. -/
def calculateRoundedDuration (startTime endTime : Nat) : Int :=
  Int.fdiv ((roundExitTime endTime : Int) - (roundEntryTime startTime : Int)) 60000

/-- Minute-of-hour of a timestamp (JavaScript `getMinutes()`). -/
def minuteOfHour (t : Nat) : Nat := t / 60000 % 60

/-- Second-of-minute of a timestamp (JavaScript `getSeconds()`). -/
def secondOfMinute (t : Nat) : Nat := t / 1000 % 60

/-- Millisecond part of a timestamp (JavaScript `getMilliseconds()`). -/
def msOfSecond (t : Nat) : Nat := t % 1000

/-- Closed form of `roundTime` on the hour/minute/remainder decomposition of
its argument. -/
theorem roundTime_decomp (k m r : Nat) (hm : m < 60) (hr : r < 60000) :
    roundTime (3600000 * k + 60000 * m + r) =
      if m ≤ 15 then 3600000 * k
      else if m ≤ 45 then 3600000 * k + 1800000
      else 3600000 * (k + 1) := by
  have h1 : (3600000 * k + 60000 * m + r) / 60000 % 60 = m := by omega
  have h2 : (3600000 * k + 60000 * m + r) % 3600000 = 60000 * m + r := by omega
  simp only [roundTime, h1, h2]
  split_ifs <;> omega

/-- Every timestamp decomposes as hour + minute + sub-minute remainder. -/
theorem timestamp_decomp (t : Nat) :
    ∃ k m r, m < 60 ∧ r < 60000 ∧ t = 3600000 * k + 60000 * m + r :=
  ⟨t / 3600000, t / 60000 % 60, t % 60000, by omega, by omega, by omega⟩

/-- C8: `roundTime` implements the piecewise policy on the minute-of-hour `m`
of its input: `m ≤ 15` truncates to the hour (floor); `15 < m ≤ 45` snaps to
`:30` of the same hour; `m > 45` snaps to `:00` of the next hour. -/
theorem roundTime_piecewise_policy (t : Nat) :
    (minuteOfHour t ≤ 15 → roundTime t = 3600000 * (t / 3600000)) ∧
    (15 < minuteOfHour t → minuteOfHour t ≤ 45 →
      roundTime t = 3600000 * (t / 3600000) + 1800000) ∧
    (45 < minuteOfHour t → roundTime t = 3600000 * (t / 3600000 + 1)) := by
  obtain ⟨k, m, r, hm, hr, ht⟩ := timestamp_decomp t
  subst ht
  have hk : (3600000 * k + 60000 * m + r) / 3600000 = k := by omega
  have hmin : minuteOfHour (3600000 * k + 60000 * m + r) = m := by
    simp only [minuteOfHour]; omega
  rw [roundTime_decomp k m r hm hr, hk, hmin]
  refine ⟨fun h1 => ?_, fun h1 h2 => ?_, fun h1 => ?_⟩ <;>
    split_ifs <;> omega

/-- Witness for C8 at concrete inputs: 09:07 floors to 09:00, 09:20 snaps to
09:30, 09:47 snaps to 10:00 (times on the epoch day). -/
theorem roundTime_piecewise_policy_witness :
    roundTime 32820000 = 32400000 ∧ roundTime 33600000 = 34200000 ∧
    roundTime 35220000 = 36000000 := by
  refine ⟨?_, ?_, ?_⟩
  · have h := (roundTime_piecewise_policy 32820000).1 (by decide)
    simpa using h
  · have h := (roundTime_piecewise_policy 33600000).2.1 (by decide) (by decide)
    simpa using h
  · have h := (roundTime_piecewise_policy 35220000).2.2 (by decide)
    simpa using h

/-- C9: the output of `roundTime` always has minute ∈ {0, 30} and zero seconds
and milliseconds, and `roundTime` is idempotent. -/
theorem roundTime_aligned_idempotent (t : Nat) :
    (minuteOfHour (roundTime t) = 0 ∨ minuteOfHour (roundTime t) = 30) ∧
    secondOfMinute (roundTime t) = 0 ∧ msOfSecond (roundTime t) = 0 ∧
    roundTime (roundTime t) = roundTime t := by
  obtain ⟨k, m, r, hm, hr, ht⟩ := timestamp_decomp t
  subst ht
  rw [roundTime_decomp k m r hm hr]
  have hfull : roundTime (3600000 * k) = 3600000 * k := by
    have h := roundTime_decomp k 0 0 (by omega) (by omega)
    simpa using h
  have hhalf : roundTime (3600000 * k + 1800000) = 3600000 * k + 1800000 := by
    have h := roundTime_decomp k 30 0 (by omega) (by omega)
    have e : 3600000 * k + 60000 * 30 + 0 = 3600000 * k + 1800000 := by omega
    rw [e] at h
    simpa using h
  have hnext : roundTime (3600000 * (k + 1)) = 3600000 * (k + 1) := by
    have h := roundTime_decomp (k + 1) 0 0 (by omega) (by omega)
    simpa using h
  split_ifs with h1 h2
  · exact ⟨by simp only [minuteOfHour]; omega,
      by simp only [secondOfMinute]; omega,
      by simp only [msOfSecond]; omega, hfull⟩
  · exact ⟨by simp only [minuteOfHour]; omega,
      by simp only [secondOfMinute]; omega,
      by simp only [msOfSecond]; omega, hhalf⟩
  · exact ⟨by simp only [minuteOfHour]; omega,
      by simp only [secondOfMinute]; omega,
      by simp only [msOfSecond]; omega, hnext⟩

/-! ## Shift records and tracking state (geofencing service) -/

/-- The `current_shift` JSON blob: `{startTime, confirmed}`. -/
structure CurrentShift where
  startTime : Nat
  confirmed : Bool
  deriving Repr, DecidableEq

/-- A pending shift as pushed by `handleWorkExit`: rounded `startTime` /
`endTime`, `durationMinutes`, `date` (the calendar day of the rounded start,
modelled as its epoch-day number), the retained original timestamps, and
`wasRounded: true`. -/
structure PendingShift where
  startTime : Nat
  endTime : Nat
  durationMinutes : Int
  date : Nat
  originalStartTime : Nat
  originalEndTime : Nat
  wasRounded : Bool
  deriving Repr, DecidableEq

/-- The persisted tracking state: the `IS_AT_WORK`, `ENTERED_TIME`,
`CURRENT_SHIFT` and `PENDING_SHIFTS` keys of the key-value store. -/
structure TrackingState where
  isAtWork : Bool
  enteredTime : Option Nat
  currentShift : Option CurrentShift
  pending : List PendingShift
  deriving Repr, DecidableEq

/-- The stored work location: `{latitude, longitude, radius}`.  Coordinates
only feed the distance computation, which the model abstracts by passing the
computed distance directly, so only the radius is carried. -/
structure WorkSite where
  radius : ℚ
  deriving Repr, DecidableEq

/-- `IOS_EXIT_BUFFER = 1.2`: 20% buffer beyond the radius before confirming
an exit. -/
def IOS_EXIT_BUFFER : ℚ := 6 / 5

/-- `workLocation.radius || 150`: JavaScript `||` falls back to 150 when the
stored radius is falsy (0). -/
def radiusOrDefault (r : ℚ) : ℚ := if r = 0 then 150 else r

/-- User-visible notifications dispatched by the service handlers. -/
inductive Notice where
  /-- "🎯 Arrived at Work" on entry. -/
  | arrived : Notice
  /-- "✅ Shift Tracking Confirmed" after the dwell recheck. -/
  | shiftConfirmed : Notice
  /-- "🎯 Work Shift Completed … Confirm this shift?" carrying the pending
  shift payload. -/
  | confirmPrompt : PendingShift → Notice
  /-- "⏱️ Short Visit … Shifts under 15 minutes are not tracked." -/
  | tooShort : Int → Notice
  deriving Repr, DecidableEq

/-- `clearWorkState`: removes `CURRENT_SHIFT` and `ENTERED_TIME`, sets
`IS_AT_WORK` to `'false'`; the pending queue is untouched. -/
def clearWorkState (s : TrackingState) : TrackingState :=
  { s with currentShift := none, enteredTime := none, isAtWork := false }

/-- `handleWorkEntry(entryTime)`: if already at work, ignore the duplicate
entry; otherwise record `ENTERED_TIME`, set `IS_AT_WORK`, and send the
arrival notification.  (The 15-minute dwell timer it schedules is modelled
by invoking `checkStillAtWork` separately.) -/
def handleWorkEntry (entryTime : Nat) (s : TrackingState) :
    TrackingState × List Notice :=
  if s.isAtWork then (s, [])
  else ({ s with enteredTime := some entryTime, isAtWork := true },
        [Notice.arrived])

/-- The shift start used by `handleWorkExit`: the confirmed shift's start if
a `CURRENT_SHIFT` blob exists, else `ENTERED_TIME`. -/
def shiftStartOf (s : TrackingState) : Option Nat :=
  match s.currentShift with
  | some cs => some cs.startTime
  | none => s.enteredTime

/-- `handleWorkExit(exitTime)`: no-op unless `IS_AT_WORK`; otherwise rounds
the start and exit times, computes `durationMinutes`, and either pushes a
`PendingShift` with a confirmation prompt (`durationMinutes >= 15`) or emits
the short-visit notice; always clears the work state on the way out. -/
def handleWorkExit (exitTime : Nat) (s : TrackingState) :
    TrackingState × List Notice :=
  if s.isAtWork = false then (s, [])
  else
    match shiftStartOf s with
    | none => (clearWorkState s, [])
    | some st =>
      let roundedStart := roundEntryTime st
      let roundedEnd := roundExitTime exitTime
      let durationMinutes :=
        Int.fdiv ((roundedEnd : Int) - (roundedStart : Int)) 60000
      if 15 ≤ durationMinutes then
        let shiftData : PendingShift :=
          { startTime := roundedStart
            endTime := roundedEnd
            durationMinutes := durationMinutes
            date := roundedStart / 86400000
            originalStartTime := st
            originalEndTime := exitTime
            wasRounded := true }
        (clearWorkState { s with pending := s.pending ++ [shiftData] },
         [Notice.confirmPrompt shiftData])
      else
        (clearWorkState s, [Notice.tooShort durationMinutes])

/-- `validateAndHandleExit(exitTime)`: fetch a fresh position (its computed
distance to the work site is `freshDist`, `none` when the fetch errors — the
catch block fails open and processes the exit anyway); with a sample in hand,
a missing stored work location aborts, and otherwise the exit is accepted
only when the distance exceeds `radius * IOS_EXIT_BUFFER`. -/
def validateAndHandleExit (exitTime : Nat) (freshDist : Option ℚ)
    (site : Option WorkSite) (s : TrackingState) :
    TrackingState × List Notice :=
  match freshDist with
  | none => handleWorkExit exitTime s
  | some d =>
    match site with
    | none => (s, [])
    | some w =>
      if d > radiusOrDefault w.radius * IOS_EXIT_BUFFER then
        handleWorkExit exitTime s
      else (s, [])

/-- `checkStillAtWork()` (the dwell-window confirmation): if tracking with a
recorded entry time, take a fresh position (`freshDist`, `none` when the
fetch errors — caught and dropped); with the stored work location present,
distance within the radius confirms the shift
(`CURRENT_SHIFT = {startTime: enteredTime, confirmed: true}` plus a
confirmation notice), and distance beyond it triggers `handleWorkExit(now)`. -/
def checkStillAtWork (now : Nat) (freshDist : Option ℚ)
    (site : Option WorkSite) (s : TrackingState) :
    TrackingState × List Notice :=
  match s.isAtWork, s.enteredTime with
  | true, some e =>
    (match freshDist with
     | none => (s, [])
     | some d =>
       match site with
       | none => (s, [])
       | some w =>
         if d ≤ radiusOrDefault w.radius then
           ({ s with currentShift := some { startTime := e, confirmed := true } },
            [Notice.shiftConfirmed])
         else handleWorkExit now s)
  | _, _ => (s, [])

/-- The background `LOCATION_TASK` body on one position sample, whose
computed distance to the work site is `d`: entry detection when inside the
radius and not yet at work; exit detection (via validation, with fresh
distance `validDist`) when beyond `radius * IOS_EXIT_BUFFER` while at work;
otherwise only logging. -/
def locationTaskStep (timestamp : Nat) (d : ℚ) (validDist : Option ℚ)
    (site : Option WorkSite) (s : TrackingState) :
    TrackingState × List Notice :=
  match site with
  | none => (s, [])
  | some w =>
    let radius := radiusOrDefault w.radius
    let exitThreshold := radius * IOS_EXIT_BUFFER
    if d ≤ radius ∧ s.isAtWork = false then handleWorkEntry timestamp s
    else if d > exitThreshold ∧ s.isAtWork = true then
      validateAndHandleExit timestamp validDist site s
    else (s, [])

/-! ## Pending-queue operations (`removePendingShift`, `confirmShift`) -/

/-- JavaScript `Array.prototype.splice(start, 1)` on a list: a negative
`start` counts from the end (clamped at 0), a too-large `start` is clamped to
the length and removes nothing. -/
def spliceRemoveOne (l : List PendingShift) (start : Int) : List PendingShift :=
  let len : Int := l.length
  let actual : Nat := (if start < 0 then max (len + start) 0 else min start len).toNat
  l.take actual ++ l.drop (actual + 1)

/-- `GeofencingService.removePendingShift(index)`: `pending.splice(index, 1)`
and store back. -/
def removePendingShift (index : Int) (pending : List PendingShift) :
    List PendingShift :=
  spliceRemoveOne pending index

/-- JavaScript `Array.prototype.findIndex`: index of the first match, `-1`
when none matches. -/
def jsFindIndex (p : PendingShift → Bool) (l : List PendingShift) : Int :=
  match l.findIdx? p with
  | some i => (i : Int)
  | none => -1

/-- The predicate `HomeScreen.confirmShift` matches pending shifts with:
same `startTime` and `endTime` as the confirmed payload. -/
def matchesShift (sd : PendingShift) (s : PendingShift) : Bool :=
  s.startTime == sd.startTime && s.endTime == sd.endTime

/-- `HomeScreen.confirmShift(shiftData)`: `createShift` is called exactly
once (first component counts the calls); only if it succeeds
(`persistOk = true`) is `removePendingShift(pendingShifts.findIndex(...))`
reached — the catch block leaves the queue untouched on failure. -/
def confirmShift (persistOk : Bool) (pending : List PendingShift)
    (sd : PendingShift) : Nat × List PendingShift :=
  if persistOk then
    (1, removePendingShift (jsFindIndex (matchesShift sd) pending) pending)
  else (1, pending)

/-! ## Helper lemmas -/

/-- `handleWorkExit` always leaves `IS_AT_WORK` false (it either was already
false or is cleared on every path). -/
theorem handleWorkExit_not_atWork (t : Nat) (s : TrackingState) :
    (handleWorkExit t s).1.isAtWork = false := by
  cases hw : s.isAtWork with
  | false => simp [handleWorkExit, hw]
  | true =>
    cases hst : shiftStartOf s with
    | none => simp [handleWorkExit, hw, hst, clearWorkState]
    | some st =>
      simp only [handleWorkExit, hw, hst]
      split_ifs <;> simp_all [clearWorkState]

/-- An exit signal observed on a state that is not tracking is a no-op. -/
theorem handleWorkExit_of_not_atWork (t : Nat) (s : TrackingState)
    (h : s.isAtWork = false) : handleWorkExit t s = (s, []) := by
  unfold handleWorkExit
  simp [h]

/-- C1: finalizing a session entered at 09:07 and exited at 17:52 on the same
day appends to the pending queue exactly one `PendingShift` with start
rounded to 09:00, end rounded to 18:00, `durationMinutes = 540`,
`wasRounded = true`, and the original timestamps retained
(`86400000 * day + offset` is the timestamp at that time-of-day). -/
theorem exit_finalizes_rounded_shift (day : Nat) (s : TrackingState)
    (hw : s.isAtWork = true)
    (hst : shiftStartOf s = some (86400000 * day + 32820000)) :
    (handleWorkExit (86400000 * day + 64320000) s).1.pending =
      s.pending ++
        [{ startTime := 86400000 * day + 32400000
           endTime := 86400000 * day + 64800000
           durationMinutes := 540
           date := day
           originalStartTime := 86400000 * day + 32820000
           originalEndTime := 86400000 * day + 64320000
           wasRounded := true }] := by
  have hrs : roundEntryTime (86400000 * day + 32820000) =
      86400000 * day + 32400000 := by
    have e : 86400000 * day + 32820000 =
        3600000 * (24 * day + 9) + 60000 * 7 + 0 := by ring
    rw [roundEntryTime, e, roundTime_decomp (24 * day + 9) 7 0 (by omega) (by omega)]
    norm_num
    ring
  have hre : roundExitTime (86400000 * day + 64320000) =
      86400000 * day + 64800000 := by
    have e : 86400000 * day + 64320000 =
        3600000 * (24 * day + 17) + 60000 * 52 + 0 := by ring
    rw [roundExitTime, e, roundTime_decomp (24 * day + 17) 52 0 (by omega) (by omega)]
    norm_num
    ring
  have hdur : Int.fdiv (((86400000 * day + 64800000 : Nat) : Int) -
      ((86400000 * day + 32400000 : Nat) : Int)) 60000 = 540 := by
    have e : ((86400000 * day + 64800000 : Nat) : Int) -
        ((86400000 * day + 32400000 : Nat) : Int) = 32400000 := by
      push_cast
      ring
    rw [e]
    decide
  have hdate : (86400000 * day + 32400000) / 86400000 = day := by omega
  simp only [handleWorkExit, hw, hst, hrs, hre, hdur, hdate]
  norm_num [clearWorkState]

/-- Witness for C1: a concrete state on epoch day 19737 (2024-01-15), at
work with a confirmed current shift started at 09:07, exits at 17:52. -/
theorem exit_finalizes_rounded_shift_witness :
    (handleWorkExit (86400000 * 19737 + 64320000)
        { isAtWork := true
          enteredTime := some (86400000 * 19737 + 32820000)
          currentShift := some { startTime := 86400000 * 19737 + 32820000
                                 confirmed := true }
          pending := [] }).1.pending =
      [{ startTime := 86400000 * 19737 + 32400000
         endTime := 86400000 * 19737 + 64800000
         durationMinutes := 540
         date := 19737
         originalStartTime := 86400000 * 19737 + 32820000
         originalEndTime := 86400000 * 19737 + 64320000
         wasRounded := true }] := by
  have h := exit_finalizes_rounded_shift 19737
    { isAtWork := true
      enteredTime := some (86400000 * 19737 + 32820000)
      currentShift := some { startTime := 86400000 * 19737 + 32820000
                             confirmed := true }
      pending := [] }
    rfl (by simp [shiftStartOf])
  simpa using h

/-- C2: when the rounded duration of the session is under 15 minutes, exit
finalization appends no `PendingShift` (the pending queue is unchanged),
still clears the tracking state (`isAtWork` false, entry time and current
shift removed), and emits the short-visit notice. -/
theorem short_shift_discarded (exitTime : Nat) (s : TrackingState) (st : Nat)
    (hw : s.isAtWork = true) (hst : shiftStartOf s = some st)
    (hd : calculateRoundedDuration st exitTime < 15) :
    (handleWorkExit exitTime s).1.pending = s.pending ∧
    (handleWorkExit exitTime s).1.isAtWork = false ∧
    (handleWorkExit exitTime s).1.enteredTime = none ∧
    (handleWorkExit exitTime s).1.currentShift = none ∧
    (handleWorkExit exitTime s).2 =
      [Notice.tooShort (calculateRoundedDuration st exitTime)] := by
  have hd' : ¬ (15 ≤ Int.fdiv ((roundExitTime exitTime : Int) -
      (roundEntryTime st : Int)) 60000) := by
    simpa [calculateRoundedDuration] using hd
  simp [handleWorkExit, hw, hst, hd', clearWorkState, calculateRoundedDuration]

/-- Witness for C2: enter at 09:50, exit at 09:58 — both round to 10:00, the
rounded duration is 0 minutes, so nothing is queued and the state is
cleared with the short-visit notice. -/
theorem short_shift_discarded_witness :
    (handleWorkExit 35880000
        { isAtWork := true
          enteredTime := some 35400000
          currentShift := none
          pending := [] }).1.pending = [] ∧
    (handleWorkExit 35880000
        { isAtWork := true
          enteredTime := some 35400000
          currentShift := none
          pending := [] }).2 = [Notice.tooShort 0] := by
  have h := short_shift_discarded 35880000
    { isAtWork := true
      enteredTime := some 35400000
      currentShift := none
      pending := [] }
    35400000 rfl (by simp [shiftStartOf]) (by decide)
  have hdur : calculateRoundedDuration 35400000 35880000 = 0 := by decide
  exact ⟨h.1, by rw [h.2.2.2.2, hdur]⟩

/-- C3: when the dwell-window confirmation check runs for a tracked session
with a recorded entry time and the fresh sample is within the radius, the
stored current shift becomes `{startTime: enteredTime, confirmed: true}`. -/
theorem dwell_check_confirms_shift (now : Nat) (d : ℚ) (w : WorkSite)
    (s : TrackingState) (e : Nat) (hw : s.isAtWork = true)
    (he : s.enteredTime = some e) (hd : d ≤ radiusOrDefault w.radius) :
    (checkStillAtWork now (some d) (some w) s).1.currentShift =
      some { startTime := e, confirmed := true } := by
  simp [checkStillAtWork, hw, he, hd]

/-- Witness for C3: a session entered at 09:07, rechecked 15 minutes later
at distance 40 m from a 150 m-radius site. -/
theorem dwell_check_confirms_shift_witness :
    (checkStillAtWork 33720000 (some 40) (some { radius := 150 })
        { isAtWork := true
          enteredTime := some 32820000
          currentShift := none
          pending := [] }).1.currentShift =
      some { startTime := 32820000, confirmed := true } :=
  dwell_check_confirms_shift 33720000 40 { radius := 150 }
    { isAtWork := true
      enteredTime := some 32820000
      currentShift := none
      pending := [] }
    32820000 rfl rfl (by norm_num [radiusOrDefault])

/-- C4: an exit signal arriving while at work is accepted only when the
fresh validation sample confirms distance > radius · 1.2: with the sample
still inside the buffered radius the state is returned unchanged with zero
notifications, and beyond it the exit handler is invoked. -/
theorem exit_validation_gate (exitTime : Nat) (d : ℚ) (w : WorkSite)
    (s : TrackingState) (_hw : s.isAtWork = true) :
    (d ≤ radiusOrDefault w.radius * IOS_EXIT_BUFFER →
      validateAndHandleExit exitTime (some d) (some w) s = (s, [])) ∧
    (d > radiusOrDefault w.radius * IOS_EXIT_BUFFER →
      validateAndHandleExit exitTime (some d) (some w) s =
        handleWorkExit exitTime s) := by
  constructor
  · intro hd
    have hd' : ¬ d > radiusOrDefault w.radius * IOS_EXIT_BUFFER := not_lt.mpr hd
    simp [validateAndHandleExit, hd']
  · intro hd
    simp [validateAndHandleExit, hd]

/-- Witness for C4: at work, radius 150 m (buffered threshold 180 m); a fresh
sample at 170 m rejects the exit, leaving the state untouched. -/
theorem exit_validation_gate_witness :
    validateAndHandleExit 64320000 (some 170) (some { radius := 150 })
        { isAtWork := true
          enteredTime := some 32820000
          currentShift := none
          pending := [] } =
      ({ isAtWork := true
         enteredTime := some 32820000
         currentShift := none
         pending := [] }, []) :=
  (exit_validation_gate 64320000 170 { radius := 150 }
    { isAtWork := true
      enteredTime := some 32820000
      currentShift := none
      pending := [] } rfl).1
    (by norm_num [radiusOrDefault, IOS_EXIT_BUFFER])

/-- C5: an ENTER signal processed while already at work is a no-op on both
paths — the boundary-crossing handler returns immediately, and the periodic
position-sample task (sample inside the radius) changes nothing and emits
nothing. -/
theorem duplicate_enter_noop (now : Nat) (d : ℚ) (validDist : Option ℚ)
    (w : WorkSite) (s : TrackingState) (hw : s.isAtWork = true)
    (hd0 : 0 ≤ d) (hd : d ≤ radiusOrDefault w.radius) :
    handleWorkEntry now s = (s, []) ∧
    locationTaskStep now d validDist (some w) s = (s, []) := by
  constructor
  · simp [handleWorkEntry, hw]
  · have hno : ¬ d > radiusOrDefault w.radius * IOS_EXIT_BUFFER := by
      rw [not_lt]
      calc d ≤ radiusOrDefault w.radius := hd
        _ ≤ radiusOrDefault w.radius * IOS_EXIT_BUFFER := by
            have h0 : (0 : ℚ) ≤ radiusOrDefault w.radius := le_trans hd0 hd
            rw [IOS_EXIT_BUFFER]
            linarith
    simp [locationTaskStep, hw, hd, hno]

/-- Witness for C5: already at work, a fresh ENTER event and an in-radius
sample at 50 m from a 150 m site both leave the state untouched. -/
theorem duplicate_enter_noop_witness :
    handleWorkEntry 32820000
        { isAtWork := true
          enteredTime := some 32820000
          currentShift := none
          pending := [] } =
      ({ isAtWork := true
         enteredTime := some 32820000
         currentShift := none
         pending := [] }, []) ∧
    locationTaskStep 32820000 50 none (some { radius := 150 })
        { isAtWork := true
          enteredTime := some 32820000
          currentShift := none
          pending := [] } =
      ({ isAtWork := true
         enteredTime := some 32820000
         currentShift := none
         pending := [] }, []) :=
  duplicate_enter_noop 32820000 50 none { radius := 150 }
    { isAtWork := true
      enteredTime := some 32820000
      currentShift := none
      pending := [] }
    rfl (by norm_num) (by norm_num [radiusOrDefault])

/-- C6: two exit signals in immediate succession for the same recordable
session append exactly one `PendingShift` in total — the first appends one,
and the second observes the cleared state, enqueues nothing and changes
nothing. -/
theorem double_exit_idempotent (t t' : Nat) (s : TrackingState) (st : Nat)
    (hw : s.isAtWork = true) (hst : shiftStartOf s = some st)
    (hd : 15 ≤ calculateRoundedDuration st t) :
    (handleWorkExit t s).1.pending.length = s.pending.length + 1 ∧
    handleWorkExit t' (handleWorkExit t s).1 = ((handleWorkExit t s).1, []) := by
  constructor
  · have hd' : 15 ≤ Int.fdiv ((roundExitTime t : Int) -
        (roundEntryTime st : Int)) 60000 := by
      simpa [calculateRoundedDuration] using hd
    simp [handleWorkExit, hw, hst, hd', clearWorkState]
  · exact handleWorkExit_of_not_atWork t' _ (handleWorkExit_not_atWork t s)

/-- Witness for C6: the 09:07 → 17:52 session; the first exit appends one
pending shift and the second exit is a no-op on the cleared state. -/
theorem double_exit_idempotent_witness :
    (handleWorkExit 64320000
        { isAtWork := true
          enteredTime := some 32820000
          currentShift := none
          pending := [] }).1.pending.length = 1 ∧
    handleWorkExit 64320001
        (handleWorkExit 64320000
          { isAtWork := true
            enteredTime := some 32820000
            currentShift := none
            pending := [] }).1 =
      ((handleWorkExit 64320000
          { isAtWork := true
            enteredTime := some 32820000
            currentShift := none
            pending := [] }).1, []) :=
  double_exit_idempotent 64320000 64320001
    { isAtWork := true
      enteredTime := some 32820000
      currentShift := none
      pending := [] }
    32820000 rfl (by simp [shiftStartOf]) (by decide)

/-- `findIdx?` only returns indices inside the list. -/
theorem findIdx?_lt_length (p : PendingShift → Bool) (l : List PendingShift)
    (i : Nat) (h : l.findIdx? p = some i) : i < l.length := by
  induction l generalizing i with
  | nil => simp [List.findIdx?] at h
  | cons a t ih =>
    rw [List.findIdx?_cons] at h
    by_cases hp : p a
    · simp [hp] at h
      simp [← h]
    · simp [hp] at h
      cases h' : (t.findIdx? p) with
      | none => rw [h'] at h; simp at h
      | some j =>
        rw [h'] at h
        simp at h
        have := ih j h'
        simp only [List.length_cons]
        omega

/-- `splice(i, 1)` at an in-range nonnegative index deletes exactly the
element at that index. -/
theorem spliceRemoveOne_eq_eraseIdx (l : List PendingShift) (i : Nat)
    (h : i < l.length) : spliceRemoveOne l (i : Int) = l.eraseIdx i := by
  unfold spliceRemoveOne
  have h1 : (if (i : Int) < 0 then max ((l.length : Int) + i) 0
      else min (i : Int) (l.length : Int)) = (i : Int) := by
    rw [if_neg (by omega)]
    omega
  simp only [h1, Int.toNat_natCast]
  exact (List.eraseIdx_eq_take_drop_succ l i).symm

/-- `splice(i, 1)` at an index at or beyond the length deletes nothing. -/
theorem spliceRemoveOne_of_le (l : List PendingShift) (i : Int)
    (h : (l.length : Int) ≤ i) : spliceRemoveOne l i = l := by
  unfold spliceRemoveOne
  have h1 : (if i < 0 then max ((l.length : Int) + i) 0
      else min i (l.length : Int)) = (l.length : Int) := by
    rw [if_neg (by omega)]
    omega
  simp only [h1, Int.toNat_natCast]
  rw [List.take_length, List.drop_eq_nil_of_le (by omega)]
  simp

/-- `splice(-1, 1)` deletes the last element (JavaScript negative-index
semantics). -/
theorem spliceRemoveOne_neg_one (l : List PendingShift) :
    spliceRemoveOne l (-1) = l.dropLast := by
  unfold spliceRemoveOne
  have h1 : (if (-1 : Int) < 0 then max ((l.length : Int) + (-1)) 0
      else min (-1 : Int) (l.length : Int)).toNat = l.length - 1 := by
    rw [if_pos (by omega)]
    omega
  simp only [h1]
  rw [List.dropLast_eq_take, List.drop_eq_nil_of_le (by omega)]
  simp

/-- C7: `confirmShift` calls the shift-persistence collaborator exactly once;
on persistence failure the pending queue is unchanged, and on success
exactly the pending shift at the index found at call time is removed. -/
theorem accept_calls_persist_once (persistOk : Bool)
    (pending : List PendingShift) (sd : PendingShift) :
    (confirmShift persistOk pending sd).1 = 1 ∧
    (persistOk = false → (confirmShift persistOk pending sd).2 = pending) ∧
    (persistOk = true → ∀ i, pending.findIdx? (matchesShift sd) = some i →
      (confirmShift persistOk pending sd).2 = pending.eraseIdx i) := by
  refine ⟨?_, ?_, ?_⟩
  · cases persistOk <;> simp [confirmShift]
  · intro h
    simp [confirmShift, h]
  · intro h i hi
    have hlt := findIdx?_lt_length (matchesShift sd) pending i hi
    simp only [confirmShift, h, if_true, removePendingShift, jsFindIndex, hi]
    exact spliceRemoveOne_eq_eraseIdx pending i hlt

/-- Witness for C7: a two-element queue whose second shift is confirmed —
persistence succeeds, is called once, and exactly index 1 is removed; with
persistence failing the queue is untouched. -/
theorem accept_calls_persist_once_witness :
    (confirmShift true
        [{ startTime := 0, endTime := 3600000, durationMinutes := 60,
           date := 0, originalStartTime := 0, originalEndTime := 3600000,
           wasRounded := true },
         { startTime := 32400000, endTime := 64800000, durationMinutes := 540,
           date := 0, originalStartTime := 32820000,
           originalEndTime := 64320000, wasRounded := true }]
        { startTime := 32400000, endTime := 64800000, durationMinutes := 540,
          date := 0, originalStartTime := 32820000,
          originalEndTime := 64320000, wasRounded := true }).1 = 1 ∧
    (confirmShift false
        [{ startTime := 0, endTime := 3600000, durationMinutes := 60,
           date := 0, originalStartTime := 0, originalEndTime := 3600000,
           wasRounded := true }]
        { startTime := 0, endTime := 3600000, durationMinutes := 60,
          date := 0, originalStartTime := 0, originalEndTime := 3600000,
          wasRounded := true }).2 =
      [{ startTime := 0, endTime := 3600000, durationMinutes := 60,
         date := 0, originalStartTime := 0, originalEndTime := 3600000,
         wasRounded := true }] ∧
    (confirmShift true
        [{ startTime := 0, endTime := 3600000, durationMinutes := 60,
           date := 0, originalStartTime := 0, originalEndTime := 3600000,
           wasRounded := true },
         { startTime := 32400000, endTime := 64800000, durationMinutes := 540,
           date := 0, originalStartTime := 32820000,
           originalEndTime := 64320000, wasRounded := true }]
        { startTime := 32400000, endTime := 64800000, durationMinutes := 540,
          date := 0, originalStartTime := 32820000,
          originalEndTime := 64320000, wasRounded := true }).2 =
      [{ startTime := 0, endTime := 3600000, durationMinutes := 60,
         date := 0, originalStartTime := 0, originalEndTime := 3600000,
         wasRounded := true }] := by
  refine ⟨(accept_calls_persist_once true _ _).1,
    (accept_calls_persist_once false _ _).2.1 rfl, ?_⟩
  have h := (accept_calls_persist_once true
    [{ startTime := 0, endTime := 3600000, durationMinutes := 60,
       date := 0, originalStartTime := 0, originalEndTime := 3600000,
       wasRounded := true },
     { startTime := 32400000, endTime := 64800000, durationMinutes := 540,
       date := 0, originalStartTime := 32820000,
       originalEndTime := 64320000, wasRounded := true }]
    { startTime := 32400000, endTime := 64800000, durationMinutes := 540,
      date := 0, originalStartTime := 32820000,
      originalEndTime := 64320000, wasRounded := true }).2.2 rfl 1 (by decide)
  rw [h]
  decide

/-- C10: `removePendingShift(i)` with `i ≥ length` leaves the queue
unchanged, while `i = -1` — the index `confirmShift` produces when its
`findIndex` lookup matches nothing — removes the last pending shift
(JavaScript `splice` semantics). -/
theorem removePendingShift_splice_semantics (pending : List PendingShift)
    (i : Int) (sd : PendingShift) :
    ((pending.length : Int) ≤ i → removePendingShift i pending = pending) ∧
    removePendingShift (-1) pending = pending.dropLast ∧
    (pending.findIdx? (matchesShift sd) = none →
      jsFindIndex (matchesShift sd) pending = -1 ∧
      confirmShift true pending sd = (1, pending.dropLast)) := by
  refine ⟨fun h => spliceRemoveOne_of_le pending i h,
    spliceRemoveOne_neg_one pending, fun h => ?_⟩
  have hj : jsFindIndex (matchesShift sd) pending = -1 := by
    simp [jsFindIndex, h]
  exact ⟨hj, by simp [confirmShift, removePendingShift, hj,
    spliceRemoveOne_neg_one]⟩

/-- Witness for C10: on a two-element queue, removal at index 2 is a no-op,
removal at −1 drops the last shift, and confirming a payload matching no
queued shift removes the last one. -/
theorem removePendingShift_splice_semantics_witness :
    removePendingShift 2
        [{ startTime := 0, endTime := 3600000, durationMinutes := 60,
           date := 0, originalStartTime := 0, originalEndTime := 3600000,
           wasRounded := true },
         { startTime := 32400000, endTime := 64800000, durationMinutes := 540,
           date := 0, originalStartTime := 32820000,
           originalEndTime := 64320000, wasRounded := true }] =
      [{ startTime := 0, endTime := 3600000, durationMinutes := 60,
         date := 0, originalStartTime := 0, originalEndTime := 3600000,
         wasRounded := true },
       { startTime := 32400000, endTime := 64800000, durationMinutes := 540,
         date := 0, originalStartTime := 32820000,
         originalEndTime := 64320000, wasRounded := true }] ∧
    confirmShift true
        [{ startTime := 0, endTime := 3600000, durationMinutes := 60,
           date := 0, originalStartTime := 0, originalEndTime := 3600000,
           wasRounded := true },
         { startTime := 32400000, endTime := 64800000, durationMinutes := 540,
           date := 0, originalStartTime := 32820000,
           originalEndTime := 64320000, wasRounded := true }]
        { startTime := 7200000, endTime := 10800000, durationMinutes := 60,
          date := 0, originalStartTime := 7200000, originalEndTime := 10800000,
          wasRounded := true } =
      (1, [{ startTime := 0, endTime := 3600000, durationMinutes := 60,
             date := 0, originalStartTime := 0, originalEndTime := 3600000,
             wasRounded := true }]) := by
  constructor
  · exact (removePendingShift_splice_semantics _ 2
      { startTime := 7200000, endTime := 10800000, durationMinutes := 60,
        date := 0, originalStartTime := 7200000, originalEndTime := 10800000,
        wasRounded := true }).1 (by decide)
  · have h := (removePendingShift_splice_semantics
      [{ startTime := 0, endTime := 3600000, durationMinutes := 60,
         date := 0, originalStartTime := 0, originalEndTime := 3600000,
         wasRounded := true },
       { startTime := 32400000, endTime := 64800000, durationMinutes := 540,
         date := 0, originalStartTime := 32820000,
         originalEndTime := 64320000, wasRounded := true }] 2
      { startTime := 7200000, endTime := 10800000, durationMinutes := 60,
        date := 0, originalStartTime := 7200000, originalEndTime := 10800000,
        wasRounded := true }).2.2 (by decide)
    rw [h.2]
    decide

end WorkTimeTracker
